import Mathlib

/-!
Shallow embedding of `solve/common.py`: a tariff-schedule loader/normalizer
(directory resolution, per-file delimiter guessing and encoding-fallback
parsing, product-code normalization, filename-year tagging), a product-code
filter, and three pure economic formulas.

Python strings are modelled as Lean `String`, `None`-able values as `Option`,
raised exceptions as `Except String`, and float arithmetic as exact rational
arithmetic over `ℚ` (all concrete values appearing in the spec's numeric
examples are exactly representable and were checked to agree with IEEE double
evaluation).  Filesystem and pandas I/O are modelled at their interface: a
text file is a name, a first line, and a parse-outcome function per
(encoding, separator) attempt; a parsed frame is a list of raw rows.
-/

/-- Number of occurrences of character `c` in `s`; models Python
`str.count` for a single-character argument (used on the first line of a
file to guess the delimiter, `common.py` line 52). -/
def countChar (s : String) (c : Char) : Nat :=
  s.toList.count c

/-- Python `str.zfill width`: left-pad with zeros to `width`, keeping a
leading sign character in front of the padding. -/
def py_zfill (width : Nat) (s : String) : String :=
  let cs := s.toList
  if width ≤ cs.length then s
  else
    match cs with
    | c :: rest =>
        if c = '+' ∨ c = '-' then
          String.mk (c :: (List.replicate (width - cs.length) '0' ++ rest))
        else
          String.mk (List.replicate (width - cs.length) '0' ++ cs)
    | [] => String.mk (List.replicate width '0')

/-- Model of `.str.replace(r"\\.0$", "", regex=True)` (`common.py` line 90).
The pattern is a raw Python string containing TWO backslash characters, so
as a regex it matches: a literal backslash, any character, then `0`, at the
end of the string.  (Python `$` would also match just before a single
trailing newline; cell values here never contain newlines, so end-of-string
is the faithful reading.)  `re.sub` removes that 3-character tail when
present. -/
def strip_backslash_any_zero (s : String) : String :=
  match s.toList.reverse with
  | '0' :: c :: '\\' :: rest =>
      if c = '\n' then s else String.mk rest.reverse
  | _ => s

/-- Model of `.str.replace(r"\\D", "", regex=True)` (`common.py` line 91).
The raw pattern holds two backslashes, so as a regex it matches a literal
backslash followed by the literal letter `D`; `re.sub` removes every such
non-overlapping two-character occurrence, scanning left to right. -/
def remove_backslash_D : List Char → List Char
  | '\\' :: 'D' :: rest => remove_backslash_D rest
  | c :: rest => c :: remove_backslash_D rest
  | [] => []

/-- The hts8 normalization applied by `load_tariff_data` (`common.py`
lines 87–93) to the string form of each product-code cell:
`.str.replace(r"\\.0$", "", regex=True).str.replace(r"\\D", "", regex=True).str.zfill(8)`. -/
def hts8_normalize (s : String) : String :=
  py_zfill 8 (String.mk (remove_backslash_D (strip_backslash_any_zero s).toList))

/-- Modelled from the spec: normalization of a product code as the spec
describes it — convert to string, strip a trailing `".0"` suffix, strip all
non-digit characters, then zero-pad on the left to 8 characters. -/
def hts8_normalize_spec (s : String) : String :=
  let s1 := if String.mk (s.toList.reverse.take 2) = "0." then
              String.mk (s.toList.reverse.drop 2).reverse
            else s
  py_zfill 8 (String.mk (s1.toList.filter Char.isDigit))

/-- First-alternative match of the year pattern `(20\\d{2}|201\\d)` at the
head of the character list: the raw pattern's `\\` is a literal backslash,
so alternative 1 matches `'2' '0' '\' d d` with `d` digits. -/
def year_alt1 : List Char → Option (List Char)
  | '2' :: '0' :: '\\' :: d1 :: d2 :: _ =>
      if d1.isDigit ∧ d2.isDigit then some ['2', '0', '\\', d1, d2] else none
  | _ => none

/-- Second-alternative match at the head: `'2' '0' '1' '\' d`. -/
def year_alt2 : List Char → Option (List Char)
  | '2' :: '0' :: '1' :: '\\' :: d :: _ =>
      if d.isDigit then some ['2', '0', '1', '\\', d] else none
  | _ => none

/-- Model of `re.search(r"(20\\d{2}|201\\d)", stem)` (`common.py` line 84):
scan start positions left to right, trying alternative 1 then alternative 2
at each, returning the first matched text. -/
def year_search : List Char → Option (List Char)
  | [] => none
  | c :: cs => year_alt1 (c :: cs) <|> year_alt2 (c :: cs) <|> year_search cs

/-- `int(year_match.group(1))` (`common.py` line 85), as an optional value.
Any actual match of the pattern contains a literal backslash, on which
Python `int` would raise; no claim exercises that path, and for digit-only
text `String.toNat?` agrees with `int`. -/
def source_year_of_stem (stem : String) : Option Nat :=
  (year_search stem.toList).bind (fun m => (String.mk m).toNat?)

/-- Modelled from the spec: extract a source year from the filename stem via
"a year-pattern match (four digits, 2010–2029 inclusive)": the first
four-consecutive-digit substring whose value lies in that range. -/
def source_year_spec : List Char → Option Nat
  | c1 :: c2 :: c3 :: c4 :: rest =>
      if c1.isDigit ∧ c2.isDigit ∧ c3.isDigit ∧ c4.isDigit then
        let n := 1000 * (c1.toNat - 48) + 100 * (c2.toNat - 48) +
                 10 * (c3.toNat - 48) + (c4.toNat - 48)
        if 2010 ≤ n ∧ n ≤ 2029 then some n
        else source_year_spec (c2 :: c3 :: c4 :: rest)
      else source_year_spec (c2 :: c3 :: c4 :: rest)
  | _ => none

/-- Python `pathlib.Path(name).stem` for a plain filename: the name without
its final suffix, where the suffix starts at the last `'.'` provided that
dot is neither the first nor the last character. -/
def path_stem (name : String) : String :=
  let cs := name.toList
  let dotIdxs := (List.range cs.length).filter (fun i => cs.getD i ' ' = '.')
  match dotIdxs.getLast? with
  | some i => if 0 < i ∧ i + 1 < cs.length then String.mk (cs.take i) else name
  | none => name

/-- The separator decision of `common.py` line 52:
`force_sep or ("," if first_line.count(",") >= first_line.count("|") else "|")`.
Python `or` falls through on a falsy (empty) forced string. -/
def sep_guess (forceSep : Option String) (firstLine : String) : String :=
  let auto := if countChar firstLine ',' ≥ countChar firstLine '|' then "," else "|"
  match forceSep with
  | some s => if s.isEmpty then auto else s
  | none => auto

/-- A raw parsed row: the string form of the `hts8` cell plus the remaining
cells, carried opaquely. -/
structure RawRow where
  hts8 : String
  rest : List String
deriving DecidableEq, Repr

/-- A row of the combined table after per-file tagging and normalization. -/
structure Row where
  hts8 : String
  source_file : String
  source_year : Option Nat
  rest : List String
deriving DecidableEq, Repr

/-- The two text encodings attempted by the loader. -/
inductive Enc
  | utf8
  | latin1
deriving DecidableEq, Repr

/-- A text file at the loader's interface: its filename, its first line
(as read for the delimiter guess), and the outcome of a pandas `read_csv`
attempt for a given encoding and separator (`none` meaning the separator
argument is `sep=None` with the sniffing python engine; the `Option` result
models success versus a raised parse/decode exception). -/
structure TxtFile where
  name : String
  firstLine : String
  readWith : Enc → Option String → Option (List RawRow)

/-- The four-stage fallback of `common.py` lines 63–80: for each encoding
(utf-8 then latin1), try the guessed separator, then automatic sniffing;
first success wins. -/
def parse_attempts (forceSep : Option String) (f : TxtFile) : Option (List RawRow) :=
  let sep := sep_guess forceSep f.firstLine
  f.readWith Enc.utf8 (some sep) <|> f.readWith Enc.utf8 none <|>
    f.readWith Enc.latin1 (some sep) <|> f.readWith Enc.latin1 none

/-- Per-file tagging and normalization (`common.py` lines 83–100): set
`source_file` to the filename, `source_year` from the year match on the
stem, and normalize the `hts8` column.  The numeric and date coercions act
on columns carried opaquely in `rest`. -/
def process_frame (f : TxtFile) (rows : List RawRow) : List Row :=
  rows.map fun r =>
    { hts8 := hts8_normalize r.hts8
      source_file := f.name
      source_year := source_year_of_stem (path_stem f.name)
      rest := r.rest }

/-- `load_tariff_data` (`common.py` lines 38–102) over the filename-sorted
list of `*.txt` files of the resolved directory: parse each file with the
fallback chain, raising `ValueError(f"Failed to parse {path}")` when every
attempt fails, and concatenate the processed frames in order. -/
def load_tariff_data : List TxtFile → Option String → Except String (List Row)
  | [], _ => Except.ok []
  | f :: fs, forceSep =>
      match parse_attempts forceSep f with
      | none => Except.error ("Failed to parse " ++ f.name)
      | some rows =>
          match load_tariff_data fs forceSep with
          | Except.error e => Except.error e
          | Except.ok rest => Except.ok (process_frame f rows ++ rest)

/-- Code normalization applied by `filter_tariffs` (`common.py` line 106):
`str(code).replace(".", "").zfill(8)` — remove every period character, then
zero-pad to 8. -/
def normalize_code (code : String) : String :=
  py_zfill 8 (String.mk (code.toList.filter (fun c => c ≠ '.')))

/-- Modelled from the spec: code normalization as the spec describes the
loader's ("strip punctuation" — all non-digit characters — then zero-pad
to 8 characters). -/
def normalize_code_spec (code : String) : String :=
  py_zfill 8 (String.mk (code.toList.filter Char.isDigit))

/-- `filter_tariffs` (`common.py` lines 105–107): keep the rows whose stored
`hts8` value lies in the set of normalized supplied codes (`.copy()` is an
identity in this pure model). -/
def filter_tariffs (df : List Row) (codes : List String) : List Row :=
  df.filter (fun r => (codes.map normalize_code).contains r.hts8)

/-- Default `pass_through` argument of `simple_pass_through` (0.7). -/
def default_pass_through : ℚ := 7 / 10

/-- Default `elasticity` argument of `laffer_revenue` (-1.1). -/
def default_elasticity : ℚ := -11 / 10

/-- `simple_pass_through` (`common.py` lines 110–114). -/
def simple_pass_through (base_price tariff pass_through : ℚ) : ℚ :=
  base_price * (1 + tariff * pass_through)

/-- `elasticity_response` (`common.py` lines 117–119). -/
def elasticity_response (volume price_change elasticity : ℚ) : ℚ :=
  volume * (1 + elasticity * price_change)

/-- `laffer_revenue` (`common.py` lines 122–132). -/
def laffer_revenue (import_value rate elasticity : ℚ) : ℚ :=
  let adjusted_import := import_value * (1 + elasticity * rate)
  let adjusted_import := max adjusted_import 0
  adjusted_import * rate

/-- The filesystem at the resolver's interface: whether a path exists and
which `*.txt` filenames a path's directory contains. -/
structure DirFS where
  dirExists : String → Bool
  txtFiles : String → List String

/-- `dict.fromkeys` deduplication (`common.py` line 30): keep the first
occurrence of each candidate, preserving order. -/
def dedup_aux : List String → List String → List String
  | _, [] => []
  | seen, c :: cs =>
      if seen.contains c then dedup_aux seen cs
      else c :: dedup_aux (c :: seen) cs

/-- Order-preserving deduplication of the candidate list. -/
def dedup_keep_first (l : List String) : List String :=
  dedup_aux [] l

/-- A candidate qualifies when it exists on disk and globbing `*.txt` in it
is non-empty (`common.py` line 31). -/
def qualifies (fs : DirFS) (c : String) : Bool :=
  fs.dirExists c && !(fs.txtFiles c).isEmpty

/-- The error message of `common.py` lines 33–35, which interpolates the
original (pre-deduplication) candidate list. -/
def dir_err_msg (cands : List String) : String :=
  "Could not find data directory with txt files among: " ++ String.intercalate ", " cands

/-- The selection loop of `_resolve_data_dir` (`common.py` lines 30–35):
return the first deduplicated candidate that qualifies, else raise
`FileNotFoundError` listing the candidates.  The candidate list itself
(lines 13–29) is built from the user path, the working directory and the
module location; it enters here as the already-built list. -/
def resolve_data_dir (fs : DirFS) (cands : List String) : Except String String :=
  match (dedup_keep_first cands).find? (qualifies fs) with
  | some c => Except.ok c
  | none => Except.error (dir_err_msg cands)

/-- A well-formed file for concrete examples: parses successfully whenever a
concrete separator is supplied, yielding `rows`. -/
def mkFile (name firstLine : String) (rows : List RawRow) : TxtFile :=
  ⟨name, firstLine, fun _ sep => if sep.isSome then some rows else none⟩

/-- A file none of whose parse attempts succeeds. -/
def badFile : TxtFile :=
  ⟨"bad.txt", "x", fun _ _ => none⟩

/-- Every element of the order-preserving deduplication occurs in the
original list. -/
theorem mem_of_mem_dedup_aux :
    ∀ (seen l : List String) (x : String), x ∈ dedup_aux seen l → x ∈ l := by
  intro seen l
  induction l generalizing seen with
  | nil => intro x hx; simp [dedup_aux] at hx
  | cons c cs ih =>
      intro x hx
      by_cases hc : seen.contains c
      · simp only [dedup_aux, if_pos hc] at hx
        exact List.mem_cons_of_mem c (ih seen x hx)
      · simp only [dedup_aux, if_neg hc, List.mem_cons] at hx
        rcases hx with h | h
        · exact h ▸ List.mem_cons_self x cs
        · exact List.mem_cons_of_mem c (ih (c :: seen) x h)

/-- A successful `List.find?` splits the list at the found element, with
everything before it failing the predicate. -/
theorem find_eq_some_split {p : String → Bool} :
    ∀ {l : List String} {c : String}, l.find? p = some c →
      p c = true ∧ ∃ pre post, l = pre ++ c :: post ∧ ∀ x ∈ pre, p x = false := by
  intro l
  induction l with
  | nil => intro c h; simp at h
  | cons a as ih =>
      intro c h
      by_cases ha : p a
      · rw [List.find?_cons_of_pos _ ha] at h
        obtain rfl : a = c := by injection h
        exact ⟨ha, [], as, rfl, by intro x hx; simp at hx⟩
      · rw [List.find?_cons_of_neg _ (by simpa using ha)] at h
        obtain ⟨hc, pre, post, hsplit, hpre⟩ := ih h
        refine ⟨hc, a :: pre, post, by simp [hsplit], ?_⟩
        intro x hx
        rcases List.mem_cons.mp hx with h1 | h1
        · simpa [h1] using ha
        · exact hpre x h1

/-- C1: the claimed invariant — every row produced by `load_tariff_data`
has an 8-character digits-only product code, with "1234.56.78" normalizing
to "12345678" — fails on the code: the doubled backslashes in the source's
raw regex strings make both strip steps match only literal backslash
sequences, so loading a file whose hts8 cell reads "1234.56.78" yields a
row whose code is still "1234.56.78" (10 characters, with dots), while the
spec-described normalization yields "12345678". -/
theorem C1_hts8_invariant_fails :
    load_tariff_data [mkFile "tariff.txt" "hts8,x" [⟨"1234.56.78", []⟩]] none =
      Except.ok [{ hts8 := "1234.56.78", source_file := "tariff.txt",
                   source_year := none, rest := [] }] ∧
    hts8_normalize "1234.56.78" = "1234.56.78" ∧
    "1234.56.78".length ≠ 8 ∧
    hts8_normalize_spec "1234.56.78" = "12345678" :=
  ⟨rfl, rfl, by decide, rfl⟩

/-- C2: the claim — a filename containing a four-digit year in 2010–2029
tags every row of that file with that year — fails on the code: the year
regex is a raw string with doubled backslashes, so it only matches text
containing a literal backslash; loading "tariff_2021.txt" leaves
`source_year` missing on every row, while the spec-described extraction
yields 2021. -/
theorem C2_source_year_fails :
    load_tariff_data [mkFile "tariff_2021.txt" "hts8,x" [⟨"12345678", []⟩]] none =
      Except.ok [{ hts8 := "12345678", source_file := "tariff_2021.txt",
                   source_year := none, rest := [] }] ∧
    source_year_of_stem "tariff_2021" = none ∧
    source_year_spec "tariff_2021".toList = some 2021 :=
  ⟨rfl, rfl, rfl⟩

/-- C3 counterexample: `filter_tariffs` does not normalize supplied codes
the way the spec describes the loader's normalization (strip punctuation,
zero-pad): it removes only period characters, so the code "1234-5678" —
whose punctuation-stripped, padded form "12345678" matches the stored row —
selects nothing. -/
theorem C3_counterexample :
    filter_tariffs
        [{ hts8 := "12345678", source_file := "f.txt", source_year := none, rest := [] }]
        ["1234-5678"] = [] ∧
    normalize_code_spec "1234-5678" = "12345678" ∧
    normalize_code "1234-5678" = "1234-5678" :=
  ⟨rfl, rfl, rfl⟩

/-- C3 amended: `filter_tariffs` normalizes each supplied code by removing
only period characters and zero-padding to 8, and returns exactly the rows
whose stored `hts8` lies in that normalized set; an empty code set yields
an empty result. -/
theorem C3_filter_membership (df : List Row) (codes : List String) (r : Row) :
    (r ∈ filter_tariffs df codes ↔ r ∈ df ∧ r.hts8 ∈ codes.map normalize_code) ∧
    filter_tariffs df [] = [] := by
  constructor
  · simp [filter_tariffs, List.mem_filter]
  · simp [filter_tariffs]

/-- C4 counterexample: `laffer_revenue` can return a negative value — the
zero floor is applied to the adjusted import volume, not to the product
with the rate, so a negative rate yields negative revenue. -/
theorem C4_counterexample :
    laffer_revenue 1 (-1) 0 = -1 ∧ laffer_revenue 1 (-1) 0 < 0 := by
  constructor
  · show max ((1 : ℚ) * (1 + 0 * (-1))) 0 * (-1) = -1
    norm_num
  · show max ((1 : ℚ) * (1 + 0 * (-1))) 0 * (-1) < 0
    norm_num

/-- C4 amended: `laffer_revenue` computes the elasticity-adjusted import
volume `import_value * (1 + elasticity * rate)`, floors it at zero, and
multiplies by `rate`; for every non-negative rate the result is
non-negative, and with non-negative import value, rate 1 and elasticity -2
the adjusted import is clamped to 0 and the revenue is 0. -/
theorem C4_laffer_nonneg (iv rate e : ℚ) (hr : 0 ≤ rate) :
    laffer_revenue iv rate e = max (iv * (1 + e * rate)) 0 * rate ∧
    0 ≤ laffer_revenue iv rate e ∧
    (0 ≤ iv → laffer_revenue iv 1 (-2) = 0) := by
  refine ⟨rfl, mul_nonneg (le_max_right _ _) hr, ?_⟩
  intro hiv
  show max (iv * (1 + (-2) * 1)) 0 * 1 = 0
  have h1 : iv * (1 + (-2) * 1) = -iv := by ring
  rw [h1, max_eq_right (neg_nonpos.mpr hiv), zero_mul]

/-- Witness for C4: the spec's own example `laffer_revenue(1000, 0.2, -1.1)`
satisfies the amended statement. -/
theorem C4_laffer_nonneg_witness :
    laffer_revenue 1000 (2/10) (-11/10) =
      max ((1000 : ℚ) * (1 + (-11/10) * (2/10))) 0 * (2/10) ∧
    0 ≤ laffer_revenue 1000 (2/10) (-11/10) ∧
    ((0 : ℚ) ≤ 1000 → laffer_revenue 1000 1 (-2) = 0) :=
  C4_laffer_nonneg 1000 (2/10) (-11/10) (by norm_num)

/-- C5: when every parse attempt for a file fails (and the files before it
in processing order parsed), `load_tariff_data` fails with the parse-failure
error naming that file, and no combined table is returned — the whole load
aborts rather than skipping the file. -/
theorem C5_parse_failure_aborts (fsep : Option String) (pre post : List TxtFile)
    (f : TxtFile) (hpre : ∀ g ∈ pre, parse_attempts fsep g ≠ none)
    (hfail : parse_attempts fsep f = none) :
    load_tariff_data (pre ++ f :: post) fsep =
      Except.error ("Failed to parse " ++ f.name) ∧
    ∀ rows, load_tariff_data (pre ++ f :: post) fsep ≠ Except.ok rows := by
  have herr : load_tariff_data (pre ++ f :: post) fsep =
      Except.error ("Failed to parse " ++ f.name) := by
    induction pre with
    | nil => simp [load_tariff_data, hfail]
    | cons g gs ih =>
        have hg : parse_attempts fsep g ≠ none := hpre g (List.mem_cons_self g gs)
        obtain ⟨rows, hrows⟩ : ∃ r, parse_attempts fsep g = some r := by
          cases h : parse_attempts fsep g with
          | none => exact absurd h hg
          | some r => exact ⟨r, rfl⟩
        have ih2 := ih (fun x hx => hpre x (List.mem_cons_of_mem g hx))
        simp [load_tariff_data, hrows, ih2]
  refine ⟨herr, fun rows h => ?_⟩
  rw [herr] at h
  exact Except.noConfusion h

/-- Witness for C5: a single file all four of whose parse attempts fail
aborts the load with the error naming it. -/
theorem C5_parse_failure_witness :
    load_tariff_data ([] ++ badFile :: []) none =
      Except.error ("Failed to parse " ++ badFile.name) ∧
    ∀ rows, load_tariff_data ([] ++ badFile :: []) none ≠ Except.ok rows :=
  C5_parse_failure_aborts none [] [] badFile
    (fun g hg => absurd hg (List.not_mem_nil g)) rfl

/-- C6: directory resolution returns the first candidate in its ordered,
deduplicated list that exists and contains a `*.txt` file; when no candidate
qualifies it fails with the directory-not-found error listing the
candidates; and a directory with no `*.txt` files never qualifies. -/
theorem C6_resolver (fs : DirFS) (cands : List String) :
    (∀ c, resolve_data_dir fs cands = Except.ok c →
        qualifies fs c = true ∧
        ∃ pre post, dedup_keep_first cands = pre ++ c :: post ∧
          ∀ x ∈ pre, qualifies fs x = false) ∧
    ((∀ c ∈ cands, qualifies fs c = false) →
        resolve_data_dir fs cands = Except.error (dir_err_msg cands)) ∧
    (∀ c, fs.txtFiles c = [] → qualifies fs c = false) := by
  refine ⟨?_, ?_, ?_⟩
  · intro c hc
    unfold resolve_data_dir at hc
    cases hfind : (dedup_keep_first cands).find? (qualifies fs) with
    | none => rw [hfind] at hc; exact Except.noConfusion hc
    | some c0 =>
        rw [hfind] at hc
        obtain rfl : c0 = c := by injection hc
        obtain ⟨hq, pre, post, hsplit, hpre⟩ := find_eq_some_split hfind
        exact ⟨hq, pre, post, hsplit, hpre⟩
  · intro hall
    unfold resolve_data_dir
    have hnone : (dedup_keep_first cands).find? (qualifies fs) = none := by
      rw [List.find?_eq_none]
      intro x hx
      have := hall x (mem_of_mem_dedup_aux [] cands x hx)
      simp [this]
    rw [hnone]
  · intro c hc
    simp [qualifies, hc]

/-- Witness for C6: a filesystem on which every path exists but holds no
`*.txt` files makes resolution fail with the error listing the candidate. -/
theorem C6_resolver_witness :
    resolve_data_dir ⟨fun _ => true, fun _ => []⟩ ["data"] =
      Except.error (dir_err_msg ["data"]) :=
  (C6_resolver ⟨fun _ => true, fun _ => []⟩ ["data"]).2.1 (by decide)

/-- C8 counterexample: a caller-forced delimiter does not always take
precedence — Python's `or` treats an empty forced string as falsy, so
forcing "" falls back to the first-line guess. -/
theorem C8_empty_force_counterexample :
    sep_guess (some "") "a|b" = "|" ∧ sep_guess (some "") "a|b" ≠ "" :=
  ⟨rfl, by decide⟩

/-- C8 amended: with no forced delimiter the guess is made from the first
line alone — comma exactly when the comma count is at least the pipe count
(ties to comma), pipe otherwise; a non-empty forced delimiter always takes
precedence, while a forced empty string falls back to the guess. -/
theorem C8_sep_guess (fl fl2 s : String) (hs : s ≠ "")
    (htie : countChar fl2 ',' = countChar fl2 '|') :
    sep_guess (some s) fl = s ∧
    sep_guess none fl =
      (if countChar fl ',' ≥ countChar fl '|' then "," else "|") ∧
    sep_guess none fl2 = "," ∧
    sep_guess (some "") fl = sep_guess none fl := by
  refine ⟨?_, rfl, ?_, rfl⟩
  · have hse : s.isEmpty = false := by
      cases he : s.isEmpty
      · rfl
      · exact absurd ((String.isEmpty_iff s).mp he) hs
    simp [sep_guess, hse]
  · show (if countChar fl2 ',' ≥ countChar fl2 '|' then "," else "|") = ","
    rw [if_pos htie.ge]

/-- Witness for C8: forcing "," wins over a pipe-heavy first line, the
guess on "a|b|c" follows the count comparison, and the tied line "ab"
guesses comma. -/
theorem C8_sep_guess_witness :
    sep_guess (some ",") "a|b|c" = "," ∧
    sep_guess none "a|b|c" =
      (if countChar "a|b|c" ',' ≥ countChar "a|b|c" '|' then "," else "|") ∧
    sep_guess none "ab" = "," ∧
    sep_guess (some "") "a|b|c" = sep_guess none "a|b|c" :=
  C8_sep_guess "a|b|c" "ab" "," (by decide) (by decide)

/-- C9: `simple_pass_through` returns
`base_price * (1 + tariff * pass_through)`, the pass-through fraction
defaults to 0.7, and `simple_pass_through 100 0.1 0.7 = 107`. -/
theorem C9_pass_through (b t p : ℚ) :
    simple_pass_through b t p = b * (1 + t * p) ∧
    default_pass_through = 7 / 10 ∧
    simple_pass_through 100 (1 / 10) default_pass_through = 107 := by
  refine ⟨rfl, rfl, ?_⟩
  show (100 : ℚ) * (1 + 1 / 10 * (7 / 10)) = 107
  norm_num

/-- C10: `filter_tariffs` is idempotent — filtering its own result with the
same code set returns the same rows, since the stored `hts8` column is
unchanged by filtering. -/
theorem C10_filter_idempotent (df : List Row) (codes : List String) :
    filter_tariffs (filter_tariffs df codes) codes = filter_tariffs df codes := by
  simp [filter_tariffs, List.filter_filter]
